import Mathlib

/-!
Shallow embedding of the core of the `pw-bdd-automation` repository:
the step parser (`src/utils/step-parser.ts`), the element resolver
(`src/utils/element-resolver.ts`), the DOM analyzer
(`src/utils/dom-analyzer.ts`) and the scenario runner / orchestrator
(`src/runner/scenario-runner.ts`).  Browser effects (Playwright calls)
are modelled as oracle functions bundled in a `PageModel`; the NLP
classifier (`node-nlp`) is modelled as structured input, matching the
spec's injected-capability contract.  All JavaScript string operations
(`includes`, `replace`, `trim`, regexes) are translated explicitly.
-/

/-- JS `hay.includes(needle)`: `needle` occurs as a contiguous substring. -/
def jsIncludes (needle hay : String) : Bool :=
  (List.range (hay.data.length + 1)).any fun i =>
    needle.data.isPrefixOf (hay.data.drop i)

/-- JS `s.replace(/"/g, "")`: remove every double-quote character. -/
def stripQuotes (s : String) : String :=
  ⟨s.data.filter (· ≠ '"')⟩

/-- JS `\s` whitespace class (the characters that occur in practice). -/
def jsIsSpace (c : Char) : Bool :=
  c = ' ' || c = '\t' || c = '\n' || c = '\r'

/-- JS `s.toLowerCase()` (ASCII), on the char list representation. -/
def jsToLower (s : String) : String :=
  ⟨s.data.map Char.toLower⟩

/-- JS `s.trim()`: drop leading and trailing whitespace. -/
def jsTrim (s : String) : String :=
  ⟨(((s.data.dropWhile jsIsSpace).reverse).dropWhile jsIsSpace).reverse⟩

/-- JS `s.split(" ")`: split at every single space, keeping empties. -/
def splitOnSpaceGo : List Char → List Char → List String
  | [], acc => [⟨acc.reverse⟩]
  | c :: rest, acc =>
    if c = ' ' then ⟨acc.reverse⟩ :: splitOnSpaceGo rest []
    else splitOnSpaceGo rest (c :: acc)

/-- JS `s.split(" ")`. -/
def splitOnSpace (s : String) : List String :=
  splitOnSpaceGo s.data []

/-- Character class of the step parser's URL regex `/\/["\w\d\-\/]*|\/$/`:
a double quote, an ASCII word character, a hyphen or a slash. -/
def isUrlTokenChar (c : Char) : Bool :=
  c = '"' || c.isAlpha || c.isDigit || c = '_' || c = '-' || c = '/'

/-- Leftmost match of `stepText.match(/\/["\w\d\-\/]*|\/$/)` on a char list:
the first `/` together with the maximal following run of token characters
(the second regex alternative `\/$` is subsumed by the first, whose
repetition may be empty). -/
def jsUrlMatchGo : List Char → Option (List Char)
  | [] => none
  | c :: rest =>
    if c = '/' then some ('/' :: rest.takeWhile isUrlTokenChar)
    else jsUrlMatchGo rest

/-- `stepText.match(/\/["\w\d\-\/]*|\/$/)` from `parseStep`. -/
def jsUrlMatch (s : String) : Option String :=
  (jsUrlMatchGo s.data).map (⟨·⟩)

/-- Does the char list end (case-insensitively) in a single whitespace
character followed by the word `w`?  This is one alternative of the
trailing-type-noun regexes `/\s(input|button|...)$/i` in `step-parser.ts`. -/
def endsWithTypeWord (s : List Char) (w : String) : Bool :=
  let n := s.length
  let k := w.data.length
  decide (k + 1 ≤ n) &&
  ((s.drop (n - k)).map Char.toLower) = w.data &&
  (match s.get? (n - k - 1) with
   | some c => jsIsSpace c
   | none => false)

/-- JS `s.replace(/\s(w1|w2|...)$/i, "")`: if the string ends in whitespace
plus one of the listed words, drop that ending; otherwise unchanged. -/
def stripTypeSuffixWith (words : List String) (s : String) : String :=
  match words.find? (fun w => endsWithTypeWord s.data w) with
  | some w => ⟨s.data.take (s.data.length - w.data.length - 1)⟩
  | none => s

/-- Word list of the multi-entity block's suffix regex in `parseStep`. -/
def suffixWords : List String :=
  ["input", "button", "link", "checkbox", "radio", "page", "dropdown"]

/-- Word list of the general-entity-mapping suffix regex in `parseStep`
(same as `suffixWords` plus `message`). -/
def suffixWordsMsg : List String :=
  ["input", "button", "link", "checkbox", "radio", "page", "dropdown", "message"]

/-- JS `val.replace(/^the\s/i, "")` used for `page` entities. -/
def stripLeadingThe (s : String) : String :=
  match s.data with
  | t :: h :: e :: sp :: rest =>
    if (t.toLower = 't' && h.toLower = 'h' && e.toLower = 'e') && jsIsSpace sp then
      ⟨rest⟩
    else s
  | _ => s

/-- One entity span returned by the NLP manager: semantic role
(`entity`), raw matched text (`sourceText`) and start offset. -/
structure Entity where
  entity : String
  sourceText : String
  start : Nat
deriving DecidableEq, Repr

/-- The `manager.process("en", stepText)` result consumed by `parseStep`.
A falsy JS `intent` is modelled as the empty string. -/
structure NlpResponse where
  intent : String
  entities : List Entity
deriving DecidableEq, Repr

/-- Stable insertion: place `a` after every element whose start offset is
strictly smaller, before the first with an equal or larger one's tail. -/
def insertByStart (a : Entity) : List Entity → List Entity
  | [] => [a]
  | b :: bs => if b.start < a.start then b :: insertByStart a bs else a :: b :: bs

/-- Stable sort by start offset, translating the in-place
`entities.sort((a, b) => a.start - b.start)` (JS sort is stable). -/
def sortByStart (l : List Entity) : List Entity :=
  l.foldr insertByStart []

/-- The `action` field of `StepAction` in `step-parser.ts`. -/
inductive ActionKind
  | navigate | click | fill | select | check | uncheck
  | assertText | assertUrl | assertVisible
deriving DecidableEq, Repr

/-- The `elementType` field of `StepAction`. -/
inductive ElementType
  | button | link | input | dropdown | checkbox | radio
deriving DecidableEq, Repr

/-- The structured action produced by `parseStep`. -/
structure StepAction where
  action : ActionKind
  locator : Option String := none
  value : Option String := none
  elementType : Option ElementType := none
deriving DecidableEq, Repr

/-- The string the `action` field carries in the source (used in the
`Unknown action` error of `interpretStep`). -/
def actionName : ActionKind → String
  | .navigate => "navigate"
  | .click => "click"
  | .fill => "fill"
  | .select => "select"
  | .check => "check"
  | .uncheck => "uncheck"
  | .assertText => "assertText"
  | .assertUrl => "assertUrl"
  | .assertVisible => "assertVisible"

/-- The mutable `entities` object of `parseStep`: later assignments to a
key shadow earlier ones, modelled by prepending. -/
abbrev EntDict := List (String × String)

/-- `entities[k] = v`. -/
def dictSet (d : EntDict) (k v : String) : EntDict := (k, v) :: d

/-- `entities[k]` (JS `undefined` is `none`). -/
def dictGet (d : EntDict) (k : String) : Option String :=
  (d.find? (fun p => p.1 = k)).map (·.2)

/-- JS `a || b` on possibly-undefined strings: keep `a` unless it is
undefined or empty (falsy). -/
def jsOrStr (a b : Option String) : Option String :=
  match a with
  | some s => if s = "" then b else some s
  | none => b

/-- First char of a `{key}` placeholder body: `[A-Za-z_]`. -/
def isKeyStart (c : Char) : Bool := c.isAlpha || c = '_'

/-- Later chars of a placeholder body: `[A-Za-z0-9_.]`. -/
def isKeyChar (c : Char) : Bool := c.isAlpha || c.isDigit || c = '_' || c = '.'

/-- Parse the body of `/\{([A-Za-z_][A-Za-z0-9_.]*)}/` after an opening
brace: the key chars and the remainder after the closing brace. -/
def parseKeyChars : List Char → Option (List Char × List Char)
  | [] => none
  | c :: rest =>
    if isKeyStart c then
      let ks := rest.takeWhile isKeyChar
      match rest.drop ks.length with
      | '\x7d' :: tail => some (c :: ks, tail)
      | _ => none
    else none

/-- Fuel-indexed worker for `resolvePlaceholders`: replace every
`{dot.path}` token via the injected test-data lookup, failing when the
key is absent (mirroring the throwing replace callback). -/
def phGo (lookup : String → Option String) : Nat → List Char → Except String String
  | _, [] => .ok ""
  | 0, c :: rest => .ok ⟨c :: rest⟩
  | fuel + 1, c :: rest =>
    if c = '\x7b' then
      match parseKeyChars rest with
      | some (ks, tail) =>
        let key : String := ⟨ks⟩
        match lookup key with
        | some v => (fun t => v ++ t) <$> phGo lookup fuel tail
        | none =>
          .error ("Error resolving placeholder " ++ key ++
            ": Error: No data found for key: " ++ key)
      | none => (fun t => ⟨c :: t.data⟩) <$> phGo lookup fuel rest
    else (fun t => ⟨c :: t.data⟩) <$> phGo lookup fuel rest

/-- `resolvePlaceholders` from `step-parser.ts`. -/
def resolvePlaceholders (lookup : String → Option String) (s : String) :
    Except String String :=
  phGo lookup s.data.length s.data

/-- The general-entity-mapping processing of one span in `parseStep`:
strip quotes, trim, strip a trailing type noun, trim again, and for
`page` entities strip a leading `the `. -/
def procEnt (e : Entity) : String :=
  let val := jsTrim (stripQuotes e.sourceText)
  let val := jsTrim (stripTypeSuffixWith suffixWordsMsg val)
  if e.entity = "page" then stripLeadingThe val else val

/-- `IntentMap[response.intent](entities, stepText)` from
`step-parser.ts`: the dispatch table producing the typed `StepAction`.
An intent with no table entry raises the JS `TypeError` of calling an
undefined mapper; `resolvePlaceholders` applied to an undefined slot
raises the `TypeError` of `undefined.replace`. -/
def intentMap (lookup : String → Option String) (intent : String)
    (e : EntDict) (text : String) : Except String StepAction :=
  let needValue : Option String → Except String String := fun v =>
    match v with
    | none => .error "TypeError: Cannot read properties of undefined (reading replace)"
    | some s => resolvePlaceholders lookup s
  if intent = "navigate" then
    .ok { action := .navigate, value := jsOrStr (dictGet e "urlPath") (dictGet e "page") }
  else if intent = "fill" then
    (needValue (dictGet e "value")).map fun rv =>
      { action := .fill, locator := dictGet e "element", value := some rv,
        elementType := some .input }
  else if intent = "click" then
    .ok { action := .click, locator := dictGet e "element",
          elementType := some (if jsIncludes "link" (jsToLower text) then .link else .button) }
  else if intent = "select" then
    (needValue (dictGet e "value")).map fun rv =>
      { action := .select, locator := dictGet e "element", value := some rv,
        elementType := some .dropdown }
  else if intent = "check" then
    (needValue (dictGet e "value")).map fun rv =>
      { action := .check, locator := dictGet e "element", value := some rv,
        elementType := some .checkbox }
  else if intent = "uncheck" then
    (needValue (dictGet e "value")).map fun rv =>
      { action := .uncheck, locator := dictGet e "element", value := some rv,
        elementType := some .checkbox }
  else if intent = "radio" then
    (needValue (dictGet e "value")).map fun rv =>
      { action := .click, locator := dictGet e "element", value := some rv,
        elementType := some .radio }
  else if intent = "assertText" then
    (needValue (jsOrStr (dictGet e "message") (dictGet e "value"))).map fun rv =>
      { action := .assertText, value := some rv }
  else if intent = "assertUrl" then
    (needValue (dictGet e "page")).map fun rv =>
      { action := .assertUrl, value := some rv }
  else if intent = "assertVisible" then
    (needValue (dictGet e "element")).map fun rv =>
      { action := .assertVisible, value := some rv }
  else
    .error "TypeError: mapper is not a function"

/-- The value produced by `parseStep`'s navigation fallback branch:
the URL-regex match with quotes stripped, or `"unknown"`. -/
def navFallbackValue (stepText : String) : String :=
  match jsUrlMatch stepText with
  | some m => stripQuotes m
  | none => "unknown"

/-- `parseStep` from `src/utils/step-parser.ts` (the version with
placeholder resolution).  The NLP manager's response for `stepText` is
passed in as `resp`; the test-data manager as `lookup`. -/
def parseStep (resp : NlpResponse) (lookup : String → Option String)
    (stepText : String) : Except String StepAction :=
  let urlMatch := jsUrlMatch stepText
  if (resp.intent = "" || resp.intent = "None") &&
      (jsIncludes "is on" (jsToLower stepText) || jsIncludes "goes to" (jsToLower stepText)) then
    .ok { action := .navigate,
          value := some (match urlMatch with
            | some m => stripQuotes m
            | none => "unknown") }
  else if resp.intent = "" || resp.intent = "None" then
    .error ("Step not recognized: " ++ stepText)
  else
    let sorted := sortByStart resp.entities
    let d1 : EntDict :=
      match urlMatch with
      | some m => dictSet [] "urlPath" (jsTrim (stripQuotes m))
      | none => []
    let d2 : EntDict :=
      match sorted,
        (resp.intent = "action.navigate" || resp.intent = "assert.text") with
      | e1 :: e2 :: _, false =>
        dictSet (dictSet d1 "value" (jsTrim (stripQuotes e1.sourceText)))
          "element"
          (jsTrim (stripTypeSuffixWith suffixWords (stripQuotes e2.sourceText)))
      | _, _ => d1
    let d3 := sorted.foldl (fun d e => dictSet d e.entity (procEnt e)) d2
    intentMap lookup resp.intent d3 stepText

/-- `interpretStep` from `scenario-runner.ts`, with the browser-level
execution of each recognized action abstracted as the oracle `exec`
(the per-action bodies only perform Playwright calls whose errors flow
into the same catch block).  The catch block rewrites errors whose
message contains `Unable to parse step` or `Unknown action` into the
uniform unrecognized-step message and re-raises every other error. -/
def interpretStep (exec : StepAction → Except String Unit)
    (lookup : String → Option String) (resp : NlpResponse)
    (keyword text : String) : Except String Unit :=
  let attempt : Except String Unit := do
    let actionObj ← parseStep resp lookup (keyword ++ " " ++ text)
    match actionObj.action with
    | .navigate => exec actionObj
    | .fill => exec actionObj
    | .click => exec actionObj
    | .select => exec actionObj
    | .assertText => exec actionObj
    | .assertUrl => exec actionObj
    | k => .error ("Unknown action: " ++ actionName k)
  match attempt with
  | .ok u => .ok u
  | .error errorMessage =>
    if jsIncludes "Unable to parse step" errorMessage ||
        jsIncludes "Unknown action" errorMessage then
      .error ("Unrecognized steps: " ++ keyword ++ " " ++ text ++
        ", Please implement this step or check the step definition.")
    else
      .error errorMessage

/-- One record harvested by `DOMAnalyzer.analyzeElement`'s
`page.evaluate` pass over the interactive elements of the page
(`typeAttr` is the source's `type` field, renamed for Lean). -/
structure DomElement where
  tag : String
  text : String
  id : String
  className : String
  name : String
  typeAttr : String
  placeholder : String
  ariaLabel : String
  dataTestId : String
  role : String
deriving DecidableEq, Repr

/-- `DOMAnalyzer.elementMatches`: the description is a case-insensitive
substring of (or contains) one of the element's descriptive fields. -/
def elementMatches (element : DomElement) (description : String) : Bool :=
  let desc := jsToLower description
  let text := jsToLower element.text
  let id := jsToLower element.id
  let className := jsToLower element.className
  let name := jsToLower element.name
  let placeholder := jsToLower element.placeholder
  let ariaLabel := jsToLower element.ariaLabel
  jsIncludes desc text || jsIncludes text desc || jsIncludes desc id ||
    jsIncludes desc className || jsIncludes desc name ||
    jsIncludes desc placeholder || jsIncludes desc ariaLabel

/-- A generated (framework-mangled) class name per the source's
`/^\w{6,}$/` filter. -/
def isGeneratedClassName (cls : String) : Bool :=
  decide (6 ≤ cls.data.length) &&
  cls.data.all (fun c => c.isAlpha || c.isDigit || c = '_')

/-- `DOMAnalyzer.generateSelectors`: candidate selectors for one
harvested element, in source priority order. -/
def generateSelectors (element : DomElement) : List String :=
  let s1 := if element.id ≠ "" then ["#" ++ element.id] else []
  let s2 := if element.dataTestId ≠ "" then
      ["[data-testid=\"" ++ element.dataTestId ++ "\"]"] else []
  let s3 := if element.name ≠ "" then
      ["[name=\"" ++ element.name ++ "\"]",
       element.tag ++ "[name=\"" ++ element.name ++ "\"]"] else []
  let s4 := if element.typeAttr ≠ "" && element.name ≠ "" then
      ["input[type=\"" ++ element.typeAttr ++ "\"][name=\"" ++ element.name ++ "\"]"] else []
  let s5 := if element.placeholder ≠ "" then
      ["[placeholder=\"" ++ element.placeholder ++ "\"]"] else []
  let s6 := if element.ariaLabel ≠ "" then
      ["[aria-label=\"" ++ element.ariaLabel ++ "\"]"] else []
  let s7 := if element.text ≠ "" && decide (element.text.data.length < 50) &&
        (element.tag = "button" || element.tag = "a") then
      [element.tag ++ ":has-text(\"" ++ element.text ++ "\")"] else []
  let s8 := if element.className ≠ "" &&
        !(jsIncludes "css-" element.className) &&
        !(jsIncludes "emotion-" element.className) then
      (match (splitOnSpace element.className).filter
          (fun cls => decide (2 < cls.data.length) && !(isGeneratedClassName cls)) with
       | c :: _ => ["." ++ c]
       | [] => [])
    else []
  s1 ++ s2 ++ s3 ++ s4 ++ s5 ++ s6 ++ s7 ++ s8

/-- `[...new Set(list)]`: deduplicate keeping first occurrences. -/
def dedupKeepFirst (l : List String) : List String :=
  (l.foldl (fun acc s => if acc.contains s then acc else acc ++ [s]) [])

/-- `DOMAnalyzer.analyzeElement`, with the harvested element records as
input.  The matching filter is the literal translation of the source's
arrow callback `(el) => { this.elementMatches(el, elementDescription); }`:
a block body with no `return`, so the callback evaluates
`elementMatches` and then yields `undefined`, which is falsy. -/
def analyzeElement (elements : List DomElement) (elementDescription : String) :
    List String :=
  let matchingElements := elements.filter (fun el =>
    let _unused := elementMatches el elementDescription
    false)
  let suggestions := matchingElements.foldl
    (fun acc el => acc ++ generateSelectors el) []
  dedupKeepFirst suggestions

/-- A Playwright accessible-name matcher: `{ name, exact: true }` versus
`{ name: new RegExp(name, "i") }`. -/
inductive NameMatcher
  | exactName (s : String)
  | regexI (s : String)
deriving DecidableEq, Repr

/-- Oracle model of one Playwright `Page`: how many elements each CSS
selector / semantic query matches and whether the first match is
visible, plus the interactive-element records that `page.evaluate`
would harvest for the DOM analyzer.  The DOM is fixed for the lifetime
of the model (the claims speak about an unchanged DOM). -/
structure PageModel where
  url : String
  selCount : String → Nat
  selVisible : String → Bool
  roleCount : String → NameMatcher → Nat
  roleVisible : String → NameMatcher → Bool
  labelCount : String → Nat
  labelVisible : String → Bool
  placeholderCount : String → Nat
  placeholderVisible : String → Bool
  elements : List DomElement

/-- Probe record of `DOMAnalyzer.findBestSelector`. -/
structure SelProbe where
  selector : String
  count : Nat
  isVisible : Bool
deriving DecidableEq, Repr

/-- Order of the source's sort comparator: visible before invisible,
then smaller (more unique) match counts first. -/
def probeLE (a b : SelProbe) : Bool :=
  if a.isVisible ≠ b.isVisible then a.isVisible else decide (a.count ≤ b.count)

/-- Stable insertion for `probeSort`. -/
def probeInsert (a : SelProbe) : List SelProbe → List SelProbe
  | [] => [a]
  | b :: bs => if !(probeLE a b) then b :: probeInsert a bs else a :: b :: bs

/-- Stable sort used to translate the JS `Array.sort` (stable). -/
def probeSort (l : List SelProbe) : List SelProbe :=
  l.foldr probeInsert []

/-- `DOMAnalyzer.findBestSelector`: probe each selector for match count
and visibility, keep those with matches, prefer visible then unique. -/
def findBestSelector (p : PageModel) (selectors : List String) : Option String :=
  let results := selectors.map (fun sel =>
    let count := p.selCount sel
    let vis := if 0 < count then p.selVisible sel else false
    ({ selector := sel, count := count, isVisible := vis } : SelProbe))
  ((probeSort (results.filter (fun r => 0 < r.count))).head?).map (·.selector)

/-- One entry of the mixed string/function strategy arrays consumed by
`ElementResolver.executeStrategies`. -/
inductive TypeStrategy
  | css (sel : String)
  | byRole (role : String) (m : NameMatcher)
  | byLabel (nm : String)
  | byPlaceholder (nm : String)
deriving DecidableEq, Repr

/-- Placeholder selector returned for a successful role-based strategy
(`__ROLE_LOCATOR_${i}__` in the source). -/
def roleLocatorTag (i : Nat) : String :=
  "__ROLE_LOCATOR_" ++ toString i ++ "__"

/-- `ElementResolver.executeStrategies`: walk the strategies in order,
returning the first selector whose locator has a match with a visible
first element; role/label/placeholder strategies yield the
`__ROLE_LOCATOR_i__` tag instead of a selector. -/
def executeStrategiesGo (p : PageModel) : List TypeStrategy → Nat → Option String
  | [], _ => none
  | .css sel :: rest, i =>
    if 0 < p.selCount sel && p.selVisible sel then some sel
    else executeStrategiesGo p rest (i + 1)
  | .byRole role m :: rest, i =>
    if 0 < p.roleCount role m && p.roleVisible role m then some (roleLocatorTag i)
    else executeStrategiesGo p rest (i + 1)
  | .byLabel nm :: rest, i =>
    if 0 < p.labelCount nm && p.labelVisible nm then some (roleLocatorTag i)
    else executeStrategiesGo p rest (i + 1)
  | .byPlaceholder nm :: rest, i =>
    if 0 < p.placeholderCount nm && p.placeholderVisible nm then some (roleLocatorTag i)
    else executeStrategiesGo p rest (i + 1)

/-- Entry point of `executeStrategies` (index starts at 0). -/
def executeStrategies (p : PageModel) (strategies : List TypeStrategy) :
    Option String :=
  executeStrategiesGo p strategies 0

/-- Strategy list of `tryLinkStrategies`. -/
def linkStrategies (nm : String) : List TypeStrategy :=
  [ .css ("a:has-text(\"" ++ nm ++ "\")"),
    .css ("a[id*=\"" ++ nm ++ "\" i]"),
    .css ("a[href*=\"" ++ nm ++ "\" i]"),
    .css ("a[alt*=\"" ++ nm ++ "\" i]"),
    .css ("a[title*=\"" ++ nm ++ "\" i]"),
    .byRole "link" (.exactName nm),
    .byRole "link" (.regexI nm) ]

/-- Strategy list of `tryButtonStrategies`. -/
def buttonStrategies (nm : String) : List TypeStrategy :=
  [ .css ("button[data-test-id*=\"" ++ nm ++ "\" i]"),
    .css ("button [data-testid*=\"" ++ nm ++ "\" i]"),
    .css ("[data-test-id*=\"" ++ nm ++ "\" i]"),
    .css ("[data-testid*=\"" ++ nm ++ "\" i]"),
    .css ("#" ++ nm),
    .css ("button[id*=\"" ++ nm ++ "\" i]"),
    .css ("button[name=\"" ++ nm ++ "\"]"),
    .css ("button:has-text(\"" ++ nm ++ "\")"),
    .css ("input[type=\"submit\"][value*=\"" ++ nm ++ "\" i]"),
    .css ("button[aria-label*=\"" ++ nm ++ "\" i]"),
    .css ("button[title*=\"" ++ nm ++ "\" i]"),
    .css ("button[class*=\"" ++ nm ++ "\" i]"),
    .css ("button:text(\"" ++ nm ++ "\")"),
    .css ("input[type=\"button\"][value*=\"" ++ nm ++ "\" i]") ]

/-- Strategy list of `tryInputStrategies` (note the source's stray
trailing apostrophe in its second selector, reproduced as `\x27`). -/
def inputStrategies (nm : String) : List TypeStrategy :=
  [ .css ("input[name=\"" ++ nm ++ "\"]"),
    .css ("#" ++ nm ++ "\x27"),
    .css ("input[placeholder*=\"" ++ nm ++ "\" i]"),
    .css ("input[aria-label*=\"" ++ nm ++ "\" i]"),
    .css ("input[data-testid*=\"" ++ nm ++ "\" i]"),
    .css ("input[type=\"" ++ nm ++ "\"]"),
    .byLabel nm,
    .byRole "textbox" (.regexI nm),
    .byPlaceholder nm ]

/-- Strategy list of `tryDropdownStrategies`. -/
def dropdownStrategies (nm : String) : List TypeStrategy :=
  [ .css ("select[name=\"" ++ nm ++ "\"]"),
    .css ("#" ++ nm),
    .byRole "combobox" (.regexI nm),
    .css ("select[aria-label*=\"" ++ nm ++ "\" i]") ]

/-- Strategy list of `tryCheckboxRadioStrategies`. -/
def checkboxRadioStrategies (nm ty : String) : List TypeStrategy :=
  [ .css ("input[type=\"" ++ ty ++ "\"][name=\"" ++ nm ++ "\"]"),
    .css ("#" ++ nm),
    .byRole ty (.regexI nm),
    .css ("input[type=\"" ++ ty ++ "\"][aria-label*=\"" ++ nm ++ "\" i]") ]

/-- `ElementResolver.tryTypeSpecificStrategies`. -/
def tryTypeSpecificStrategies (p : PageModel) (nm : String)
    (elementType : Option String) : Option String :=
  match elementType with
  | some "link" => executeStrategies p (linkStrategies nm)
  | some "button" => executeStrategies p (buttonStrategies nm)
  | some "input" => executeStrategies p (inputStrategies nm)
  | some "dropdown" => executeStrategies p (dropdownStrategies nm)
  | some "checkbox" => executeStrategies p (checkboxRadioStrategies nm "checkbox")
  | some "radio" => executeStrategies p (checkboxRadioStrategies nm "radio")
  | _ => none

/-- One entry of the `tryQuickStrategies` list: a CSS string or one of
the four role-based async closures (link/button, exact/regex). -/
inductive QuickStrategy
  | css (sel : String)
  | fnRole (role : String) (exact : Bool)
deriving DecidableEq, Repr

/-- The descriptive pseudo-selector string built by the role-based quick
strategies, e.g. `getByRole('link', { name: 'x', exact: true })`. -/
def quickSelString (role nm : String) (exact : Bool) : String :=
  if exact then
    "getByRole(\x27" ++ role ++ "\x27, \x7b name: \x27" ++ nm ++ "\x27, exact: true \x7d)"
  else
    "getByRole(\x27" ++ role ++ "\x27, \x7b name: /" ++ nm ++ "/i \x7d)"

/-- The quick-strategy list of `tryQuickStrategies`, in source order. -/
def quickStrategies (nm : String) : List QuickStrategy :=
  [ .css ("[data-testid=\"" ++ nm ++ "\"]"),
    .css ("[data-testid*=\"" ++ nm ++ "\" i]"),
    .css ("#" ++ nm),
    .css ("[name=\"" ++ nm ++ "\"]"),
    .fnRole "link" true,
    .fnRole "link" false,
    .fnRole "button" true,
    .fnRole "button" false,
    .css ("button:has-text(\"" ++ nm ++ "\")"),
    .css ("a:has-text(\"" ++ nm ++ "\")"),
    .css ("input[placeholder*=\"" ++ nm ++ "\" i]"),
    .css ("input[aria-label*=\"" ++ nm ++ "\" i]"),
    .css ("*:has-text(\"" ++ nm ++ "\"):visible") ]

/-- Loop body of `tryQuickStrategies`.  A role closure first checks its
own `count() > 0` and returns the descriptive string; the outer loop
then sniffs that string (`includes("getByRole")`, `includes("'link'")`,
`includes("exact: true")`) to rebuild the locator and re-checks
`count() > 0` and visibility, exactly as the source does. -/
def tryQuickGo (p : PageModel) (nm : String) : List QuickStrategy → Option String
  | [] => none
  | .css sel :: rest =>
    if 0 < p.selCount sel && p.selVisible sel then some sel
    else tryQuickGo p nm rest
  | .fnRole role ex :: rest =>
    let m : NameMatcher := if ex then .exactName nm else .regexI nm
    if 0 < p.roleCount role m then
      let sel := quickSelString role nm ex
      let role2 := if jsIncludes "\x27link\x27" sel then "link" else "button"
      let m2 : NameMatcher :=
        if jsIncludes "exact: true" sel then .exactName nm else .regexI nm
      if 0 < p.roleCount role2 m2 && p.roleVisible role2 m2 then some sel
      else tryQuickGo p nm rest
    else tryQuickGo p nm rest

/-- `ElementResolver.tryQuickStrategies`. -/
def tryQuickStrategies (p : PageModel) (nm : String) : Option String :=
  tryQuickGo p nm (quickStrategies nm)

/-- The locator value `resolve` hands back: `page.locator(sel)` or a
role-based locator returned directly. -/
inductive LocatorRef
  | bySel (sel : String)
  | byRole (role : String) (m : NameMatcher)
deriving DecidableEq, Repr

/-- Which tier of the cascade produced the locator (instrumentation for
stating the registry-idempotence claims; the source logs the same
information). -/
inductive ResolvedVia
  | cache | typeTier | roleDirect | quick | domTier
deriving DecidableEq, Repr

/-- The resolver's in-memory selector registry `Map<string, string>`;
later `set`s shadow earlier entries. -/
abbrev SelectorCache := List (String × String)

/-- `cache.get(k)` (after `cache.has(k)`). -/
def cacheLookup (c : SelectorCache) (k : String) : Option String :=
  (c.find? (fun p => p.1 = k)).map (·.2)

/-- `cache.set(k, v)`. -/
def cacheSet (c : SelectorCache) (k v : String) : SelectorCache := (k, v) :: c

/-- The cache key computed by `resolve`: the source's template literal
`` `${url}_${elementName}_${scenarioId} || "default"}_${Date.now()}` ``
(the `|| "default"` is inside the string — a garbled template — and the
key embeds the current time in milliseconds). -/
def cacheKey (url elementName : String) (scenarioId : Option String)
    (now : Nat) : String :=
  url ++ "_" ++ elementName ++ "_" ++
    (match scenarioId with | some s => s | none => "undefined") ++
    " || \"default\"\x7d_" ++ toString now

/-- The `ElementNotFound` message thrown at the end of the cascade. -/
def notFoundMsg (elementName : String) (tried : Nat) : String :=
  "Could not locate element, \"" ++ elementName ++ "\" after trying " ++
    toString tried ++ " strategies"

/-- The role-based direct button lookup `resolve` performs between the
type-specific and quick tiers (exact match first, then the
case-insensitive regex); its result is returned without caching. -/
def buttonRoleDirect (p : PageModel) (nm : String) : Option LocatorRef :=
  if 0 < p.roleCount "button" (.exactName nm) &&
      p.roleVisible "button" (.exactName nm) then
    some (.byRole "button" (.exactName nm))
  else if 0 < p.roleCount "button" (.regexI nm) &&
      p.roleVisible "button" (.regexI nm) then
    some (.byRole "button" (.regexI nm))
  else none

/-- `ElementResolver.resolve` from `src/utils/element-resolver.ts`,
state-passing over the selector cache, with the wall clock
(`Date.now()`) as the explicit input `now`.  Tier order: cached
selector (revalidated by `count() > 0`), type-specific strategies,
role-based direct button lookup, quick strategies, DOM analysis,
otherwise the `Could not locate element` error. -/
def resolve (p : PageModel) (elementName : String)
    (elementType : Option String) (scenarioId : Option String)
    (now : Nat) (cache : SelectorCache) :
    Except String (LocatorRef × ResolvedVia) × SelectorCache :=
  let key := cacheKey p.url elementName scenarioId now
  let cacheHit : Option String :=
    match cacheLookup cache key with
    | some cachedSelector =>
      if 0 < p.selCount cachedSelector then some cachedSelector else none
    | none => none
  match cacheHit with
  | some cachedSelector => (.ok (.bySel cachedSelector, .cache), cache)
  | none =>
    match tryTypeSpecificStrategies p elementName elementType with
    | some typeSelector =>
      (.ok (.bySel typeSelector, .typeTier), cacheSet cache key typeSelector)
    | none =>
      match (if elementType = some "button" then buttonRoleDirect p elementName
             else none) with
      | some roleLoc => (.ok (roleLoc, .roleDirect), cache)
      | none =>
        match tryQuickStrategies p elementName with
        | some quickSelector =>
          (.ok (.bySel quickSelector, .quick), cacheSet cache key quickSelector)
        | none =>
          let suggestions := analyzeElement p.elements elementName
          match (if 0 < suggestions.length then findBestSelector p suggestions
                 else none) with
          | some bestSelector =>
            (.ok (.bySel bestSelector, .domTier), cacheSet cache key bestSelector)
          | none =>
            (.error (notFoundMsg elementName suggestions.length), cache)

/-- Status of one executed step: `executeStepWithRetries` only ever
returns `passed` or `failed` results. -/
inductive StepStatus
  | passed | failed
deriving DecidableEq, Repr

/-- Outcome of the per-step retry loop `executeStepWithRetries`,
instrumented with the observable effect counts the claims speak about:
`attemptsMade` counts `executeStep` invocations, `captures` counts
diagnostic-capture events (a screenshot plus DOM snapshot taken
together), `waits` counts backoff `waitForTimeout(1000)` calls that
actually reached a page. -/
structure RetryOut where
  status : StepStatus
  error : Option String
  attemptsMade : Nat
  captures : Nat
  waits : Nat
deriving DecidableEq, Repr

/-- Loop body of `executeStepWithRetries`: `fuel` is the number of
remaining iterations of `for (attempt = 0; attempt <= maxRetries;
attempt++)`; when it runs out, the post-loop final-failure capture
fires (guarded by `maxRetries > 0` and screenshots being enabled) and
the failed `StepResult` carries the last error.  On a failed attempt
the first-failure capture fires once (guarded by the screenshot flag),
and before any non-final attempt the code runs
`await this.page?.waitForTimeout(1000)`, which waits only when the
runner's `page` field (`pageRef`) is non-null. -/
def retryGo (shots : Bool) (pageRef : Option Unit)
    (attempts : Nat → Except String Unit) (maxRetries : Nat) :
    Nat → Nat → Bool → Nat → Nat → Option String → RetryOut
  | 0, attempt, _, caps, waits, lastErr =>
    { status := .failed, error := lastErr, attemptsMade := attempt,
      captures := caps + (if 0 < maxRetries && shots then 1 else 0),
      waits := waits }
  | fuel + 1, attempt, firstFailure, caps, waits, _lastErr =>
    match attempts attempt with
    | .ok _ =>
      { status := .passed, error := none, attemptsMade := attempt + 1,
        captures := caps, waits := waits }
    | .error e =>
      let caps' := if firstFailure && shots then caps + 1 else caps
      let waits' :=
        if decide (attempt < maxRetries) && pageRef.isSome then waits + 1 else waits
      retryGo shots pageRef attempts maxRetries fuel (attempt + 1) false caps' waits'
        (some e)

/-- `executeStepWithRetries` from `scenario-runner.ts`: run the step up
to `maxRetries + 1` times; `attempts i` is the outcome of `executeStep`
on attempt `i` (an oracle: it performs browser effects), `shots` the
`ENABLE_SCREENSHOTS` flag, `pageRef` the runner's `this.page` field. -/
def executeStepWithRetries (maxRetries : Nat) (shots : Bool)
    (pageRef : Option Unit) (attempts : Nat → Except String Unit) : RetryOut :=
  retryGo shots pageRef attempts maxRetries (maxRetries + 1) 0 true 0 0 none

/-- The `ScenarioRunner.page` field: initialized to `null` in the class
body and never assigned anywhere in the source (the only assignments
are inside commented-out code in `setup`), so it is always `none` when
`executeStepWithRetries` runs its backoff wait on it. -/
def scenarioRunnerPage : Option Unit := none

/-- Status of a whole scenario (`ScenarioResult.status`). -/
inductive ScenStatus
  | passed | failed | skipped
deriving DecidableEq, Repr

/-- One step loop of `runScenario`: execute steps in order, record each
result, and `break` as soon as a result is `failed` (so a failed result
is always the last one recorded and later steps never run). -/
def runStepsUntilFailure {α : Type} (exec : α → StepStatus) :
    List α → List (α × StepStatus)
  | [] => []
  | s :: rest =>
    match exec s with
    | .failed => [(s, .failed)]
    | .passed => (s, .passed) :: runStepsUntilFailure exec rest

/-- Does the recorded list contain a failed step? -/
def anyFailed {α : Type} (l : List (α × StepStatus)) : Bool :=
  l.any (fun p => p.2 = .failed)

/-- `runScenario` from `scenario-runner.ts`, reduced to its control
flow over step outcomes: `gotoFails` models the initial
`page.goto(baseURL)` throwing (which jumps to the catch block before
any step runs and returns a failed result with the steps recorded so
far — none); otherwise the background steps (if any) run first with the
fail-fast loop, scenario steps run only when the background did not
fail, and the status starts `passed`, is set to `failed` by any failed
step, and is never set to `skipped`.  `exec` is the outcome of
`executeStepWithRetries` for each step (which itself never throws). -/
def runScenario {α : Type} (gotoFails : Bool) (background : Option (List α))
    (steps : List α) (exec : α → StepStatus) :
    ScenStatus × List (α × StepStatus) :=
  if gotoFails then (.failed, [])
  else
    let bgResults :=
      match background with
      | some bg => runStepsUntilFailure exec bg
      | none => []
    if anyFailed bgResults then (.failed, bgResults)
    else
      let stepResults := runStepsUntilFailure exec steps
      (if anyFailed stepResults then .failed else .passed,
        bgResults ++ stepResults)

/-- A concrete interactive-element record: an anchor whose text and id
both contain the descriptor `forgot username` (so `elementMatches`
accepts it, and a working analyzer would suggest selectors for it). -/
def sampleAnchor : DomElement :=
  { tag := "a", text := "forgot username", id := "forgot-username",
    className := "", name := "", typeAttr := "", placeholder := "",
    ariaLabel := "", dataTestId := "", role := "" }

/-- A page on which every selector and semantic query misses, but whose
DOM contains `sampleAnchor`: every resolver tier fails here. -/
def deadPage : PageModel :=
  { url := "https://example.org/login",
    selCount := fun _ => 0, selVisible := fun _ => false,
    roleCount := fun _ _ => 0, roleVisible := fun _ _ => false,
    labelCount := fun _ => 0, labelVisible := fun _ => false,
    placeholderCount := fun _ => 0, placeholderVisible := fun _ => false,
    elements := [sampleAnchor] }

/-- A page with one element matched (and visible) under the selector
`[data-testid="login"]` — the first quick strategy for the descriptor
`login` — and nothing else.  Its DOM does not change between calls. -/
def pageA : PageModel :=
  { url := "https://www.saucedemo.com/",
    selCount := fun s => if s = "[data-testid=\"login\"]" then 1 else 0,
    selVisible := fun s => s = "[data-testid=\"login\"]",
    roleCount := fun _ _ => 0, roleVisible := fun _ _ => false,
    labelCount := fun _ => 0, labelVisible := fun _ => false,
    placeholderCount := fun _ => 0, placeholderVisible := fun _ => false,
    elements := [] }

/-- A step executor that fails exactly on the step text `bad`. -/
def execW : String → StepStatus :=
  fun s => if s = "bad" then .failed else .passed

/-- A step-attempt oracle that fails on every attempt with a distinct
message. -/
def failingAttempts : Nat → Except String Unit :=
  fun i => .error ("boom " ++ toString i)

/-! Helper lemmas shared by the claim theorems. -/

/-- With a null page reference, the optional-chained backoff
`this.page?.waitForTimeout(1000)` inside the retry loop never runs:
the wait counter is passed through unchanged. -/
theorem retryGo_waits_none (shots : Bool) (attempts : Nat → Except String Unit)
    (maxRetries : Nat) :
    ∀ fuel attempt ff caps waits lastErr,
      (retryGo shots none attempts maxRetries fuel attempt ff caps waits lastErr).waits
        = waits := by
  intro fuel
  induction fuel with
  | zero => intro attempt ff caps waits lastErr; rfl
  | succ n ih =>
    intro attempt ff caps waits lastErr
    simp only [retryGo]
    cases attempts attempt with
    | ok u => rfl
    | error e =>
      simp only [Option.isSome_none, Bool.and_false, if_false]
      exact ih (attempt + 1) false _ waits (some e)

/-- A recorded list with no failed entry consists of passed entries. -/
theorem anyFailed_false_all_passed {α : Type} {l : List (α × StepStatus)}
    (h : anyFailed l = false) : ∀ p ∈ l, p.2 = .passed := by
  intro p hp
  cases hs : p.2 with
  | passed => rfl
  | failed =>
    exfalso
    have hl : l.any (fun q => q.2 = .failed) = true :=
      List.any_eq_true.mpr ⟨p, hp, by simp [hs]⟩
    rw [anyFailed, hl] at h
    exact Bool.noConfusion h

/-- In the fail-fast step loop, every recorded result except possibly
the last is passed: a failure terminates the loop immediately. -/
theorem runStepsUF_dropLast_passed {α : Type} (exec : α → StepStatus)
    (l : List α) : ∀ p ∈ (runStepsUntilFailure exec l).dropLast, p.2 = .passed := by
  induction l with
  | nil => intro p hp; simp [runStepsUntilFailure] at hp
  | cons s rest ih =>
    intro p hp
    simp only [runStepsUntilFailure] at hp
    cases hex : exec s with
    | failed => rw [hex] at hp; simp at hp
    | passed =>
      rw [hex] at hp
      cases hrest : runStepsUntilFailure exec rest with
      | nil => rw [hrest] at hp; simp at hp
      | cons a t =>
        rw [hrest, List.dropLast_cons₂] at hp
        rcases List.mem_cons.mp hp with h1 | h2
        · rw [h1]
        · exact ih p (hrest ▸ h2)

/-- Membership in the front of an appended list splits into the left
part or the front of the right part. -/
theorem mem_dropLast_append {α : Type} {l1 l2 : List α} {p : α}
    (hp : p ∈ (l1 ++ l2).dropLast) : p ∈ l1 ∨ p ∈ l2.dropLast := by
  cases h2 : l2 with
  | nil =>
    rw [h2, List.append_nil] at hp
    exact Or.inl (List.dropLast_subset _ hp)
  | cons a t =>
    rw [h2, List.dropLast_append_of_ne_nil _ (by simp)] at hp
    rcases List.mem_append.mp hp with h | h
    · exact Or.inl h
    · exact Or.inr (h2 ▸ h)

/-- `anyFailed` distributes over append. -/
theorem anyFailed_append {α : Type} (l1 l2 : List (α × StepStatus)) :
    anyFailed (l1 ++ l2) = (anyFailed l1 || anyFailed l2) := by
  simp [anyFailed]

/-- A char list without a slash has no URL-regex match. -/
theorem jsUrlMatchGo_eq_none {l : List Char} (h : ∀ c ∈ l, c ≠ '/') :
    jsUrlMatchGo l = none := by
  induction l with
  | nil => rfl
  | cons c rest ih =>
    simp only [jsUrlMatchGo]
    rw [if_neg (h c (List.mem_cons_self c rest))]
    exact ih (fun x hx => h x (List.mem_cons_of_mem c hx))

/-- The placeholder scanner leaves a brace-free char list unchanged. -/
theorem phGo_no_brace (lookup : String → Option String) (fuel : Nat) :
    ∀ l : List Char, (∀ c ∈ l, c ≠ '\x7b') → phGo lookup fuel l = .ok ⟨l⟩ := by
  induction fuel with
  | zero =>
    intro l h
    cases l with
    | nil => rfl
    | cons c rest => rfl
  | succ n ih =>
    intro l h
    cases l with
    | nil => rfl
    | cons c rest =>
      have hc : ¬(c = '\x7b') := h c (List.mem_cons_self c rest)
      simp only [phGo, if_neg hc]
      rw [ih rest (fun x hx => h x (List.mem_cons_of_mem c hx))]
      rfl

/-- `resolvePlaceholders` is the identity on strings containing no
opening brace. -/
theorem resolvePlaceholders_id (lookup : String → Option String) (s : String)
    (h : ∀ c ∈ s.data, c ≠ '\x7b') :
    resolvePlaceholders lookup s = .ok s := by
  rw [resolvePlaceholders, phGo_no_brace lookup s.data.length s.data h]

/-- `DOMAnalyzer.analyzeElement` returns the empty suggestion list on
every input: its filter callback never returns the match result. -/
theorem analyzeElement_nil (elements : List DomElement) (desc : String) :
    analyzeElement elements desc = [] := by
  simp [analyzeElement, dedupKeepFirst]

/-- Whenever `resolve` fails, the error is the not-found message with a
suggestion count of zero (the DOM-analysis tier produced nothing). -/
theorem resolve_error_msg (p : PageModel) (nm : String) (et sid : Option String)
    (now : Nat) (cache : SelectorCache) (m : String) (c2 : SelectorCache)
    (h : resolve p nm et sid now cache = (.error m, c2)) :
    m = notFoundMsg nm 0 := by
  have hnil : analyzeElement p.elements nm = [] := analyzeElement_nil p.elements nm
  simp only [resolve, hnil, List.length_nil] at h
  split at h
  · simp at h
  · split at h
    · simp at h
    · split at h
      · simp at h
      · split at h
        · simp at h
        · simp at h
          exact h.1.symm

/-- String concatenation is associative. -/
theorem strAssoc (a b c : String) : (a ++ b) ++ c = a ++ (b ++ c) := by
  cases a with | mk xa =>
  cases b with | mk xb =>
  cases c with | mk xc =>
  show String.mk ((xa ++ xb) ++ xc) = String.mk (xa ++ (xb ++ xc))
  rw [List.append_assoc]

/-- A string occurs (in the JS `includes` sense) in any surrounding
concatenation. -/
theorem jsIncludes_mid (a b c : String) : jsIncludes b (a ++ (b ++ c)) = true := by
  unfold jsIncludes
  apply List.any_eq_true.mpr
  refine ⟨a.data.length, List.mem_range.mpr ?_, ?_⟩
  · have hdata : (a ++ (b ++ c)).data = a.data ++ (b.data ++ c.data) := rfl
    rw [hdata]
    simp [List.length_append]
    omega
  · have hdata : (a ++ (b ++ c)).data = a.data ++ (b.data ++ c.data) := rfl
    rw [hdata, List.drop_left]
    exact List.isPrefixOf_iff_prefix.mpr (List.prefix_append _ _)

/-- The not-found message decomposes around the descriptor name. -/
theorem notFoundMsg_split (nm : String) :
    notFoundMsg nm 0 =
      "Could not locate element, \"" ++ (nm ++ "\" after trying 0 strategies") := by
  show (((("Could not locate element, \"" ++ nm) ++ "\" after trying ") ++
    toString (0 : Nat)) ++ " strategies") = _
  rw [strAssoc, strAssoc, strAssoc]
  rfl

/-! The claim theorems. -/

/-- C1: contrary to the claim, when `parseStep` cannot classify a step
it throws `Step not recognized: <text>`, and the Orchestrator's catch
block only rewrites messages containing `Unable to parse step` or
`Unknown action`; so the recognition error surfaces with its raw
internal message, not the uniform `Unrecognized steps` message
(conjuncts 1 and 2, evaluated at the step `When Frobnicate the
whatsit`).  The other two legs of the claim do hold: a classified
intent with no executor in the `switch` (here `check`) is rewritten
into the uniform message (conjunct 3), and execution errors such as a
Playwright timeout propagate verbatim (conjunct 4). -/
theorem interpretStep_recognition_error_surfaces_raw :
    interpretStep (fun _ => .ok ()) (fun _ => none) ⟨"None", []⟩ "When"
        "Frobnicate the whatsit" =
      .error "Step not recognized: When Frobnicate the whatsit" ∧
    "Step not recognized: When Frobnicate the whatsit" ≠
      "Unrecognized steps: When Frobnicate the whatsit, Please implement this step or check the step definition." ∧
    interpretStep (fun _ => .ok ()) (fun _ => none)
        ⟨"check", [⟨"value", "\"a\"", 12⟩, ⟨"element", "\"remember\" checkbox", 21⟩]⟩
        "When" "user check \"a\" from \"remember\" checkbox" =
      .error "Unrecognized steps: When user check \"a\" from \"remember\" checkbox, Please implement this step or check the step definition." ∧
    interpretStep (fun _ => .error "Timeout 5000ms exceeded.") (fun _ => none)
        ⟨"fill", [⟨"value", "\"a\"", 10⟩, ⟨"element", "\"user\" input", 17⟩]⟩
        "When" "user fill \"a\" in \"user\" input" =
      .error "Timeout 5000ms exceeded." :=
  ⟨rfl, by decide, rfl, rfl⟩

/-- C2: contrary to the claim, the second `resolve` call on an
unchanged page is not answered from the cached registry entry: the
cache key embeds `Date.now()`, so the key of the second call (time 1)
is absent from the cache written by the first call (time 0) — conjunct
3 — and the second call re-runs the quick-strategy tier (`ResolvedVia.quick`,
not `.cache`, in conjunct 2).  Both calls do return the same selector. -/
theorem resolve_second_call_misses_registry :
    resolve pageA "login" none none 0 [] =
      (.ok (.bySel "[data-testid=\"login\"]", .quick),
       [(cacheKey pageA.url "login" none 0, "[data-testid=\"login\"]")]) ∧
    resolve pageA "login" none none 1
        [(cacheKey pageA.url "login" none 0, "[data-testid=\"login\"]")] =
      (.ok (.bySel "[data-testid=\"login\"]", .quick),
       [(cacheKey pageA.url "login" none 1, "[data-testid=\"login\"]"),
        (cacheKey pageA.url "login" none 0, "[data-testid=\"login\"]")]) ∧
    cacheLookup [(cacheKey pageA.url "login" none 0, "[data-testid=\"login\"]")]
        (cacheKey pageA.url "login" none 1) = none :=
  ⟨rfl, rfl, rfl⟩

/-- C3: with maximum retry count 2 and screenshots enabled, a step
whose execution fails on every attempt makes exactly 3 attempts,
produces exactly 2 diagnostic captures (one on the first failed
attempt, one after exhaustion), and returns a failed `StepResult`
carrying the error of the last attempt (attempt index 2). -/
theorem executeStepWithRetries_retry_accounting (pageRef : Option Unit)
    (attempts : Nat → Except String Unit) (errs : Nat → String)
    (h : ∀ i, attempts i = .error (errs i)) :
    (executeStepWithRetries 2 true pageRef attempts).attemptsMade = 3 ∧
    (executeStepWithRetries 2 true pageRef attempts).captures = 2 ∧
    (executeStepWithRetries 2 true pageRef attempts).status = .failed ∧
    (executeStepWithRetries 2 true pageRef attempts).error = some (errs 2) := by
  simp [executeStepWithRetries, retryGo, h]

/-- C3 witness: the always-failing oracle `failingAttempts` at retry
count 2 with screenshots enabled. -/
theorem executeStepWithRetries_retry_accounting_witness :
    (executeStepWithRetries 2 true none failingAttempts).attemptsMade = 3 ∧
    (executeStepWithRetries 2 true none failingAttempts).captures = 2 ∧
    (executeStepWithRetries 2 true none failingAttempts).status = .failed ∧
    (executeStepWithRetries 2 true none failingAttempts).error = some "boom 2" :=
  executeStepWithRetries_retry_accounting none failingAttempts
    (fun i => "boom " ++ toString i) (fun _ => rfl)

/-- C4: `DOMAnalyzer.analyzeElement` returns the empty suggestion list
for every page snapshot and every element description, because its
filter callback calls `elementMatches` without returning the result;
consequently the resolver's DOM-analysis fallback tier never yields a
selector, and whenever `resolve` reaches that tier and fails it
reports the not-found message with `after trying 0 strategies`. -/
theorem analyzeElement_always_empty :
    (∀ (elements : List DomElement) (desc : String),
      analyzeElement elements desc = []) ∧
    (∀ (p : PageModel) (nm : String) (et sid : Option String) (now : Nat)
        (cache : SelectorCache) (m : String) (c2 : SelectorCache),
      resolve p nm et sid now cache = (.error m, c2) → m = notFoundMsg nm 0) :=
  ⟨analyzeElement_nil, resolve_error_msg⟩

/-- C4 witness: a page containing an anchor that textually matches the
descriptor still yields no suggestions, and the resolver's failure on
it carries the zero-strategy message. -/
theorem analyzeElement_always_empty_witness :
    analyzeElement [sampleAnchor] "forgot username" = [] ∧
    "Could not locate element, \"forgot username\" after trying 0 strategies" =
      notFoundMsg "forgot username" 0 :=
  ⟨analyzeElement_always_empty.1 [sampleAnchor] "forgot username",
   analyzeElement_always_empty.2 deadPage "forgot username" none none 0 [] _ [] rfl⟩

/-- C5 counterexample: a scenario with no background and zero steps
(and a successful initial navigation) is reported `passed`, not
`skipped` as the claim requires for a scenario in which zero steps
ran. -/
theorem runScenario_zero_steps_reports_passed :
    runScenario false none ([] : List Unit) (fun _ => .passed) = (.passed, []) ∧
    (ScenStatus.passed ≠ ScenStatus.skipped) :=
  ⟨rfl, by decide⟩

/-- C5 (amended): the scenario status is `failed` exactly when the
initial navigation failed or some recorded step failed, and otherwise
`passed`; the runner never returns `skipped` (a zero-step scenario is
reported `passed`). -/
theorem runScenario_status_never_skipped {α : Type} (gotoFails : Bool)
    (background : Option (List α)) (steps : List α) (exec : α → StepStatus) :
    (runScenario gotoFails background steps exec).1 =
      (if gotoFails || anyFailed (runScenario gotoFails background steps exec).2
       then .failed else .passed) := by
  cases gotoFails with
  | true => rfl
  | false =>
    simp only [runScenario, Bool.false_or, Bool.false_eq_true, if_false]
    by_cases hbg : anyFailed (match background with
        | some bg => runStepsUntilFailure exec bg
        | none => []) = true
    · simp [hbg]
    · have hbg' : anyFailed (match background with
          | some bg => runStepsUntilFailure exec bg
          | none => []) = false := by simpa using hbg
      simp [hbg', anyFailed_append]

/-- C6: within one scenario run every recorded step result before the
last is passed (a failure terminates the step loop, so no step after a
failed one is executed), and when some background step fails the
recorded results are exactly the background results that ran (no
scenario step executes) and the scenario status is failed. -/
theorem runScenario_failfast {α : Type} (bg steps : List α)
    (exec : α → StepStatus) :
    (∀ p ∈ ((runScenario false (some bg) steps exec).2).dropLast, p.2 = .passed) ∧
    (anyFailed (runStepsUntilFailure exec bg) = true →
      (runScenario false (some bg) steps exec).2 = runStepsUntilFailure exec bg ∧
      (runScenario false (some bg) steps exec).1 = .failed) := by
  constructor
  · intro p hp
    simp only [runScenario, Bool.false_eq_true, if_false] at hp
    by_cases hbg : anyFailed (runStepsUntilFailure exec bg) = true
    · rw [if_pos hbg] at hp
      exact runStepsUF_dropLast_passed exec bg p hp
    · rw [if_neg hbg] at hp
      have hbg' : anyFailed (runStepsUntilFailure exec bg) = false := by
        simpa using hbg
      rcases mem_dropLast_append hp with h | h
      · exact anyFailed_false_all_passed hbg' p h
      · exact runStepsUF_dropLast_passed exec steps p h
  · intro hbg
    simp [runScenario, hbg]

/-- C6 witness: background `["ok", "bad"]` with the executor failing on
`bad` and one scenario step `"next"`: only the two background results
are recorded, the failed one last, and the status is failed. -/
theorem runScenario_failfast_witness :
    (∀ p ∈ ((runScenario false (some ["ok", "bad"]) ["next"] execW).2).dropLast,
      p.2 = .passed) ∧
    ((runScenario false (some ["ok", "bad"]) ["next"] execW).2 =
        runStepsUntilFailure execW ["ok", "bad"] ∧
      (runScenario false (some ["ok", "bad"]) ["next"] execW).1 = .failed) :=
  ⟨(runScenario_failfast ["ok", "bad"] ["next"] execW).1,
   (runScenario_failfast ["ok", "bad"] ["next"] execW).2 (by rfl)⟩

/-- C7: when the classifier returns no intent (or `None`) but the text
contains `is on` or `goes to` (case-insensitively), `parseStep`
succeeds with a navigate action whose value is the first `/`-prefixed
literal-path token (quotes stripped), or `unknown` when the text
contains no slash. -/
theorem parseStep_navigation_fallback (resp : NlpResponse)
    (lookup : String → Option String) (stepText : String)
    (hno : resp.intent = "" ∨ resp.intent = "None")
    (hnav : (jsIncludes "is on" (jsToLower stepText) ||
             jsIncludes "goes to" (jsToLower stepText)) = true) :
    parseStep resp lookup stepText =
      .ok { action := .navigate, locator := none,
            value := some (navFallbackValue stepText), elementType := none } ∧
    ((∀ c ∈ stepText.data, c ≠ '/') → navFallbackValue stepText = "unknown") ∧
    (∀ m, jsUrlMatch stepText = some m → navFallbackValue stepText = stripQuotes m) := by
  refine ⟨?_, ?_, ?_⟩
  · have hcond : (decide (resp.intent = "") || decide (resp.intent = "None")) = true := by
      rcases hno with h | h <;> simp [h]
    simp [parseStep, hcond, hnav, navFallbackValue]
  · intro h
    have hm : jsUrlMatchGo stepText.data = none := jsUrlMatchGo_eq_none h
    simp [navFallbackValue, jsUrlMatch, hm]
  · intro m hm
    simp [navFallbackValue, hm]

/-- C7 witness: classifier returns `None` on a `is on` step containing
the quoted path `"/inventory"`; the fallback yields a navigate action
with value `/inventory`. -/
theorem parseStep_navigation_fallback_witness :
    parseStep ⟨"None", []⟩ (fun _ => none)
        "Given user is on the login page \"/inventory\"" =
      .ok { action := .navigate, locator := none, value := some "/inventory",
            elementType := none } :=
  (parseStep_navigation_fallback ⟨"None", []⟩ (fun _ => none) _
    (Or.inr rfl) (by rfl)).1

/-- C8: for a `fill` step whose classifier response has two entities
which, sorted by start offset, carry the roles `value` then `element`,
`parseStep` assigns the offset-first span (quotes stripped, trimmed,
trailing type noun removed) to the action's value and the offset-second
span (same processing: quotes stripped, trailing type-noun suffix such
as ` input` removed) to its locator, with element type `input`; the
value must contain no `{...}` placeholder (hypothesis `hnoph`), as in
the claim's example. -/
theorem parseStep_fill_two_slot (resp : NlpResponse)
    (lookup : String → Option String) (stepText : String) (e1 e2 : Entity)
    (hintent : resp.intent = "fill")
    (hsorted : sortByStart resp.entities = [e1, e2])
    (hrole1 : e1.entity = "value") (hrole2 : e2.entity = "element")
    (hnoph : ∀ c ∈ (jsTrim (stripTypeSuffixWith suffixWordsMsg
        (jsTrim (stripQuotes e1.sourceText)))).data, c ≠ '\x7b') :
    parseStep resp lookup stepText =
      .ok { action := .fill,
            locator := some (jsTrim (stripTypeSuffixWith suffixWordsMsg
              (jsTrim (stripQuotes e2.sourceText)))),
            value := some (jsTrim (stripTypeSuffixWith suffixWordsMsg
              (jsTrim (stripQuotes e1.sourceText)))),
            elementType := some ElementType.input } := by
  have hpe1 : procEnt e1 = jsTrim (stripTypeSuffixWith suffixWordsMsg
      (jsTrim (stripQuotes e1.sourceText))) := by
    simp [procEnt, hrole1]
  have hpe2 : procEnt e2 = jsTrim (stripTypeSuffixWith suffixWordsMsg
      (jsTrim (stripQuotes e2.sourceText))) := by
    simp [procEnt, hrole2]
  simp only [parseStep, hintent, hsorted]
  simp only [List.foldl_cons, List.foldl_nil, hrole1, hrole2]
  simp [intentMap, dictGet, dictSet, hpe1, hpe2]
  rw [resolvePlaceholders_id lookup _ hnoph]
  rfl

/-- C8 witness: the claim's example `Fill "secret_sauce" in "password"
input` with the classifier's two spans (value before element) produces
exactly `{action: fill, locator: "password", value: "secret_sauce",
elementType: input}`. -/
theorem parseStep_fill_two_slot_witness :
    parseStep ⟨"fill", [⟨"element", "\"password\" input", 28⟩,
        ⟨"value", "\"secret_sauce\"", 10⟩]⟩
        (fun _ => none) "Fill \"secret_sauce\" in \"password\" input" =
      .ok { action := .fill, locator := some "password",
            value := some "secret_sauce", elementType := some ElementType.input } :=
  parseStep_fill_two_slot _ (fun _ => none) _ ⟨"value", "\"secret_sauce\"", 10⟩
    ⟨"element", "\"password\" input", 28⟩ rfl (by rfl) rfl rfl (by decide)

/-- C9 counterexample: on a page where every tier fails, `resolve`
raises exactly `Could not locate element, "forgot username" after
trying 0 strategies` — the number it reports is the count of
DOM-analysis selector suggestions (always 0), and the message mentions
neither the word `frame` nor the count `1`, although exactly one frame
(the page itself) was searched; so it does not name the number of
frames searched. -/
theorem resolve_error_mentions_no_frames :
    resolve deadPage "forgot username" none none 0 [] =
      (.error "Could not locate element, \"forgot username\" after trying 0 strategies",
       []) ∧
    jsIncludes "frame"
      "Could not locate element, \"forgot username\" after trying 0 strategies" = false ∧
    jsIncludes "1"
      "Could not locate element, \"forgot username\" after trying 0 strategies" = false :=
  ⟨rfl, rfl, rfl⟩

/-- C9 (amended): whenever every resolution tier fails, `resolve`
raises an error whose message names the descriptor and the number of
candidate selectors produced by the DOM-analysis tier (always 0) — not
a frame count. -/
theorem resolve_error_names_descriptor_and_candidate_count (p : PageModel)
    (nm : String) (et sid : Option String) (now : Nat) (cache : SelectorCache)
    (m : String) (c2 : SelectorCache)
    (h : resolve p nm et sid now cache = (.error m, c2)) :
    m = notFoundMsg nm 0 ∧ jsIncludes nm m = true := by
  have hm := resolve_error_msg p nm et sid now cache m c2 h
  refine ⟨hm, ?_⟩
  rw [hm, notFoundMsg_split]
  exact jsIncludes_mid _ _ ("\" after trying 0 strategies")

/-- C9 witness: the failing resolution of `username` on `deadPage`. -/
theorem resolve_error_names_descriptor_witness :
    "Could not locate element, \"username\" after trying 0 strategies" =
      notFoundMsg "username" 0 ∧
    jsIncludes "username"
      "Could not locate element, \"username\" after trying 0 strategies" = true :=
  resolve_error_names_descriptor_and_candidate_count deadPage "username"
    none none 5 [] _ [] rfl

/-- C10: contrary to the claim, no backoff wait is ever performed
between retry attempts: the wait is `await
this.page?.waitForTimeout(1000)` on the runner's `page` field, which is
initialized to null and never assigned (`scenarioRunnerPage = none`),
so the optional chaining skips the wait on every attempt for every
retry configuration and every failing step. -/
theorem executeStepWithRetries_performs_no_backoff_wait (maxRetries : Nat)
    (shots : Bool) (attempts : Nat → Except String Unit) :
    (executeStepWithRetries maxRetries shots scenarioRunnerPage attempts).waits = 0 :=
  retryGo_waits_none shots attempts maxRetries (maxRetries + 1) 0 true 0 0 none
